import Mathlib

/-!
Verification development for the ClaudeBridge interactive-session automation
and decision-brokering engine.

The definitions below are a shallow embedding of the TypeScript source:

* `src/ai/auto-approve.ts` — auto-approve rule engine (`getDefaultRules`,
  `matchesRule`, `evaluateAutoApproveRules`);
* `src/ai/escalation.ts` — escalation classifier (`ESCALATION_PATTERNS`,
  `getCheckableText`, `classifyEscalation`, `formatEscalationWarning`);
* `src/server.ts` — the permission-hook decision flow (`hookPermission`);
* `src/core/session-manager.ts` — PTY session supervisor;
* `src/telegram/bot.ts` — decision broker (pending approvals with their
  two timeout timers, pending question sets, keystroke synthesis).

JavaScript `RegExp.test` (unanchored search) is embedded with a small
Brzozowski-derivative matcher; each regex literal of the source is
translated node by node into the `Regex` syntax below.  JavaScript `Map`s
are embedded as insertion-ordered association lists and JavaScript `Set`s
as insertion-ordered duplicate-free lists, matching their iteration
semantics.  Timestamps (`Date.now()` values) are naturals counting
milliseconds.
-/

/- ===================== Regex engine (JS RegExp.test) ===================== -/

/-- Regular-expression syntax.  `eos` is the end-of-input anchor used by the
source pattern that contains an unanchored alternative with a dollar anchor.
Character classes are embedded as boolean predicates. -/
inductive Regex where
  | emp : Regex
  | eps : Regex
  | eos : Regex
  | cls : (Char → Bool) → Regex
  | seq : Regex → Regex → Regex
  | alt : Regex → Regex → Regex
  | star : Regex → Regex

/-- Nullability away from the end of the input: can the regex match the
empty string at a position that is not the end of the string?  The
end-of-input anchor cannot. -/
def Regex.nullMid : Regex → Bool
  | .emp => false
  | .eps => true
  | .eos => false
  | .cls _ => false
  | .seq a b => a.nullMid && b.nullMid
  | .alt a b => a.nullMid || b.nullMid
  | .star _ => true

/-- Nullability at the end of the input: the end-of-input anchor matches. -/
def Regex.nullEnd : Regex → Bool
  | .emp => false
  | .eps => true
  | .eos => true
  | .cls _ => false
  | .seq a b => a.nullEnd && b.nullEnd
  | .alt a b => a.nullEnd || b.nullEnd
  | .star _ => true

/-- Brzozowski derivative with respect to one character. -/
def Regex.deriv : Regex → Char → Regex
  | .emp, _ => .emp
  | .eps, _ => .emp
  | .eos, _ => .emp
  | .cls p, c => if p c then .eps else .emp
  | .seq a b, c =>
      if a.nullMid then .alt (.seq (a.deriv c) b) (b.deriv c) else .seq (a.deriv c) b
  | .alt a b, c => .alt (a.deriv c) (b.deriv c)
  | .star a, c => .seq (a.deriv c) (.star a)

/-- Does the regex match some prefix of the remaining input (a match may
only use the end-of-input anchor when it consumes the whole remainder)? -/
def Regex.mtest : Regex → List Char → Bool
  | r, [] => r.nullEnd
  | r, c :: cs => r.nullMid || (r.deriv c).mtest cs

/-- JavaScript `RegExp.test`: unanchored search over the whole string. -/
def Regex.jstest : Regex → List Char → Bool
  | r, [] => r.nullEnd
  | r, c :: cs => r.mtest (c :: cs) || r.jstest cs

/-- Single literal character. -/
def Regex.chr (c : Char) : Regex := .cls (fun x => x == c)

/-- Single literal character, case-insensitive (the `i` flag). -/
def Regex.chrI (c : Char) : Regex := .cls (fun x => x.toLower == c.toLower)

/-- Concatenation of a list of regexes. -/
def Regex.cat (rs : List Regex) : Regex := rs.foldr .seq .eps

/-- Literal string. -/
def Regex.strLit (s : String) : Regex := .cat (s.data.map .chr)

/-- Literal string, case-insensitive (the `i` flag). -/
def Regex.strLitI (s : String) : Regex := .cat (s.data.map .chrI)

/-- Zero-or-one. -/
def Regex.opt (r : Regex) : Regex := .alt .eps r

/-- One-or-more. -/
def Regex.plus (r : Regex) : Regex := .seq r (.star r)

/-- JavaScript `\s` (the whitespace characters relevant to ASCII text plus
the no-break space; the further Unicode space characters of the JS class
never occur in the strings considered here). -/
def jsWhitespace (c : Char) : Bool :=
  c == ' ' || c == '\t' || c == '\n' || c == '\r' || c == '\x0b' || c == '\x0c' ||
    c == ' '

/-- The class `\s`. -/
def wsp : Regex := .cls jsWhitespace

/-- The class `[^\s]`. -/
def nonWsp : Regex := .cls (fun c => !jsWhitespace c)

/-- JavaScript `.` (anything but a line terminator). -/
def dotAny : Regex := .cls (fun c => !(c == '\n' || c == '\r'))

/-- JavaScript `\w`. -/
def wordChar : Regex := .cls (fun c => c.isAlphanum || c == '_')

/- ===================== Policy engine data model ===================== -/

/-- The `tool_input` map of a hook payload is opaque in the source; only the
fields the engine reads (`command`, `file_path`, `path`) are modelled, plus
its JSON serialization used by `getCheckableText` in the default case. -/
structure ToolInput where
  command : Option String
  file_path : Option String
  path : Option String
  serialized : String
deriving DecidableEq

/-- Hook payload from Claude Code PreToolUse (`src/core/types.ts`). -/
structure HookPayload where
  session_id : String
  transcript_path : String
  cwd : String
  hook_event_name : String
  tool_name : String
  tool_input : ToolInput

/-- A rule pattern string: either it compiles to a regex, or `new RegExp`
throws a `SyntaxError` on it (a malformed pattern). -/
inductive RegexPattern where
  | valid : Regex → RegexPattern
  | malformed : RegexPattern

/-- Action of an auto-approve rule. -/
inductive RuleAction where
  | allow : RuleAction
  | deny : RuleAction
deriving DecidableEq

/-- The `match` field of an `AutoApproveRule` (named `rmatch` here because
`match` is reserved in Lean).  A `toolName` that is a single string in the
source is normalized to a one-element list, exactly as `matchesRule` does. -/
structure RuleMatch where
  toolName : Option (List String)
  cwdPattern : Option RegexPattern
  commandPattern : Option RegexPattern
  filePattern : Option RegexPattern

/-- `AutoApproveRule` from `src/ai/types.ts`. -/
structure AutoApproveRule where
  name : String
  rmatch : RuleMatch
  action : RuleAction
  reason : Option String

/-- Running `new RegExp(p).test(s)`: a malformed pattern throws. -/
def testPattern (p : RegexPattern) (s : String) : Except Unit Bool :=
  match p with
  | .malformed => .error ()
  | .valid r => .ok (r.jstest s.data)

/-- The `safe-reads` default rule. -/
def safeReadsRule : AutoApproveRule :=
  { name := "safe-reads"
    rmatch :=
      { toolName := some ["Read", "Glob", "Grep", "WebSearch", "WebFetch"]
        cwdPattern := none, commandPattern := none, filePattern := none }
    action := .allow
    reason := some "Read-only operations are safe" }

/-- The optional group in the recursive-force-delete patterns. -/
def rmFlagGroup : Regex := .opt (.seq (.chr '-') (.star nonWsp))

/-- Regex of the pattern string of the deny-rm-rf rule. -/
def denyRmRfRegex : Regex :=
  .alt
    (.cat [.strLit "rm", .plus wsp, rmFlagGroup, .chr 'r', .star nonWsp, .chr 'f'])
    (.cat [.strLit "rm", .plus wsp, rmFlagGroup, .chr 'f', .star nonWsp, .chr 'r'])

/-- The `deny-rm-rf` default rule. -/
def denyRmRfRule : AutoApproveRule :=
  { name := "deny-rm-rf"
    rmatch :=
      { toolName := some ["Bash"]
        cwdPattern := none
        commandPattern := some (.valid denyRmRfRegex)
        filePattern := none }
    action := .deny
    reason := some "Recursive force delete is too dangerous to auto-approve" }

/-- Regex of the git force-push pattern of the source. -/
def forcePushRegex : Regex :=
  .alt
    (.cat [.strLit "git", .plus wsp, .strLit "push", .plus wsp, .star dotAny,
      .strLit "--force"])
    (.cat [.strLit "git", .plus wsp, .strLit "push", .plus wsp, .strLit "-f"])

/-- The `deny-force-push` default rule. -/
def denyForcePushRule : AutoApproveRule :=
  { name := "deny-force-push"
    rmatch :=
      { toolName := some ["Bash"]
        cwdPattern := none
        commandPattern := some (.valid forcePushRegex)
        filePattern := none }
    action := .deny
    reason := some "Force push can destroy remote history" }

/-- Default rules that ship with ClaudeBridge, in source order. -/
def getDefaultRules : List AutoApproveRule :=
  [safeReadsRule, denyRmRfRule, denyForcePushRule]

/-- Last criterion of `matchesRule`: the file pattern, tested against
`tool_input.file_path || tool_input.path || ''`. -/
def matchesRuleFile (payload : HookPayload) (rule : AutoApproveRule) : Except Unit Bool :=
  match rule.rmatch.filePattern with
  | some p =>
    match testPattern p ((payload.tool_input.file_path.orElse
        fun _ => payload.tool_input.path).getD "") with
    | .error e => .error e
    | .ok b => .ok b
  | none => .ok true

/-- Third criterion of `matchesRule`: the command pattern, tested against
`tool_input.command || ''`. -/
def matchesRuleCommand (payload : HookPayload) (rule : AutoApproveRule) : Except Unit Bool :=
  match rule.rmatch.commandPattern with
  | some p =>
    match testPattern p (payload.tool_input.command.getD "") with
    | .error e => .error e
    | .ok true => matchesRuleFile payload rule
    | .ok false => .ok false
  | none => matchesRuleFile payload rule

/-- Second criterion of `matchesRule`: the cwd pattern. -/
def matchesRuleCwd (payload : HookPayload) (rule : AutoApproveRule) : Except Unit Bool :=
  match rule.rmatch.cwdPattern with
  | some p =>
    match testPattern p payload.cwd with
    | .error e => .error e
    | .ok true => matchesRuleCommand payload rule
    | .ok false => .ok false
  | none => matchesRuleCommand payload rule

/-- `matchesRule`, embedding the source's sequence of checks (tool name,
cwd pattern, command pattern, file pattern); absent criteria are skipped,
and a malformed pattern makes `new RegExp` throw, which propagates
(`Except.error`). -/
def matchesRule (payload : HookPayload) (rule : AutoApproveRule) : Except Unit Bool :=
  match rule.rmatch.toolName with
  | some names =>
    if !names.contains payload.tool_name then .ok false
    else matchesRuleCwd payload rule
  | none => matchesRuleCwd payload rule

/-- Evaluate a hook payload against a list of auto-approve rules: first
matching rule wins; an exception raised while matching one rule propagates
(there is no try/catch in the source loop). -/
def evaluateAutoApproveRules (payload : HookPayload) :
    List AutoApproveRule → Except Unit (Option AutoApproveRule)
  | [] => .ok none
  | r :: rs =>
    match matchesRule payload r with
    | .error e => .error e
    | .ok true => .ok (some r)
    | .ok false => evaluateAutoApproveRules payload rs

/- ===================== Escalation classifier ===================== -/

/-- Escalation levels, totally ordered by `levelOrder`. -/
inductive EscalationLevel where
  | safe : EscalationLevel
  | caution : EscalationLevel
  | dangerous : EscalationLevel
  | critical : EscalationLevel
deriving DecidableEq

/-- The `levelOrder` record of `classifyEscalation`. -/
def levelOrder : EscalationLevel → Nat
  | .safe => 0
  | .caution => 1
  | .dangerous => 2
  | .critical => 3

/-- One entry of `ESCALATION_PATTERNS`. -/
structure EscalationPattern where
  level : EscalationLevel
  toolName : Option String
  pattern : Regex
  description : String

/-- `EscalationResult` from `src/ai/types.ts`. -/
structure EscalationResult where
  level : EscalationLevel
  reason : String
  patterns : List String

/-- The ordered pattern catalogue of `src/ai/escalation.ts`, each regex
literal translated node by node. -/
def ESCALATION_PATTERNS : List EscalationPattern :=
  [ { level := .critical, toolName := some "Bash"
      pattern := .alt
        (.cat [.strLit "rm", .plus wsp, rmFlagGroup, .chr 'r', .star nonWsp,
          .chr 'f', .plus wsp, .chr '/', wsp])
        (.cat [.strLit "rm", .plus wsp, rmFlagGroup, .chr 'f', .star nonWsp,
          .chr 'r', .plus wsp, .chr '/', wsp])
      description := "Recursive force delete from root" }
  , { level := .critical, toolName := some "Bash"
      pattern := .strLit "mkfs."
      description := "Filesystem formatting" }
  , { level := .critical, toolName := some "Bash"
      pattern := .cat [.strLit "dd", .plus wsp, .star dotAny, .strLit "of=/dev/"]
      description := "Direct disk write" }
  , { level := .dangerous, toolName := some "Bash"
      pattern := forcePushRegex
      description := "Force push" }
  , { level := .dangerous, toolName := some "Bash"
      pattern := .cat [.strLit "git", .plus wsp, .strLit "reset", .plus wsp,
        .strLit "--hard"]
      description := "Hard reset" }
  , { level := .dangerous, toolName := some "Bash"
      pattern := .cat [.strLitI "DROP", .plus wsp,
        .alt (.strLitI "TABLE") (.alt (.strLitI "DATABASE") (.strLitI "SCHEMA"))]
      description := "SQL DROP operation" }
  , { level := .dangerous, toolName := some "Bash"
      pattern := .cat [.strLitI "TRUNCATE", .plus wsp, .strLitI "TABLE"]
      description := "SQL TRUNCATE operation" }
  , { level := .dangerous, toolName := some "Bash"
      pattern := .cat [.strLitI "DELETE", .plus wsp, .strLitI "FROM", .plus wsp,
        .plus wordChar, .star wsp, .alt (.chr ';') .eos]
      description := "SQL DELETE without WHERE clause" }
  , { level := .dangerous, toolName := some "Bash"
      pattern := .cat [.strLit "rm", .plus wsp, rmFlagGroup, .chr 'r']
      description := "Recursive delete" }
  , { level := .caution, toolName := some "Bash"
      pattern := .cat [.strLit "git", .plus wsp, .strLit "checkout", .plus wsp,
        .chr '.']
      description := "Discard all local changes" }
  , { level := .caution, toolName := some "Bash"
      pattern := .cat [.strLit "git", .plus wsp, .strLit "clean", .plus wsp,
        .chr '-', .star nonWsp, .chr 'f']
      description := "Force clean untracked files" }
  , { level := .caution, toolName := some "Bash"
      pattern := .cat [.strLit "chmod", .plus wsp]
      description := "Permission change" }
  , { level := .caution, toolName := some "Bash"
      pattern := .cat [.strLit "chown", .plus wsp]
      description := "Ownership change" }
  , { level := .caution, toolName := some "Bash"
      pattern := .alt (.cat [.strLit "npm", .plus wsp, .strLit "publish"])
        (.cat [.strLit "yarn", .plus wsp, .strLit "publish"])
      description := "Package publish" }
  , { level := .caution, toolName := some "Bash"
      pattern := .cat [.strLit "curl", .plus wsp, .star dotAny, .chr '|',
        .star wsp, .opt (.strLit "ba"), .strLit "sh"]
      description := "Piping remote script to shell" }
  ]

/-- `getCheckableText`: shell command for Bash, file path for file tools,
serialized input otherwise.  An empty string is falsy in JavaScript, so
`(x as string) || null` yields `null` for both a missing and an empty
field. -/
def getCheckableText (payload : HookPayload) : Option String :=
  match payload.tool_name with
  | "Bash" =>
    match payload.tool_input.command with
    | some s => if s == "" then none else some s
    | none => none
  | "Edit" | "Write" | "Read" =>
    match payload.tool_input.file_path with
    | some s => if s == "" then none else some s
    | none => none
  | _ => some payload.tool_input.serialized

/-- The pattern loop of `classifyEscalation`, accumulating the matched
descriptions and the running maximum level. -/
def classifyGo (payload : HookPayload) :
    List EscalationPattern → List String × EscalationLevel →
      List String × EscalationLevel
  | [], acc => acc
  | ep :: rest, (matched, highest) =>
    let toolSkip :=
      match ep.toolName with
      | some tn => tn != payload.tool_name
      | none => false
    if toolSkip then classifyGo payload rest (matched, highest)
    else
      match getCheckableText payload with
      | none => classifyGo payload rest (matched, highest)
      | some text =>
        if ep.pattern.jstest text.data then
          classifyGo payload rest
            (matched ++ [ep.description],
              if levelOrder ep.level > levelOrder highest then ep.level else highest)
        else classifyGo payload rest (matched, highest)

/-- `classifyEscalation`: maximum matched level, concatenated descriptions. -/
def classifyEscalation (payload : HookPayload) : EscalationResult :=
  let res := classifyGo payload ESCALATION_PATTERNS ([], .safe)
  { level := res.2
    reason :=
      if res.1.length > 0 then String.intercalate ", " res.1
      else "No escalation patterns matched"
    patterns := res.1 }

/-- `formatEscalationWarning` from `src/ai/escalation.ts`. -/
def formatEscalationWarning (result : EscalationResult) : String :=
  let icon :=
    match result.level with
    | .safe => ""
    | .caution => "⚠️"
    | .dangerous => "⚠️⚠️"
    | .critical => "🛑"
  let label :=
    match result.level with
    | .safe => ""
    | .caution => "Caution"
    | .dangerous => "DANGEROUS"
    | .critical => "CRITICAL"
  icon ++ " *" ++ label ++ "*: " ++ result.reason

/- ===================== Server permission-hook flow ===================== -/

/-- A permission decision as returned through the hook response. -/
inductive Decision where
  | allow : Decision
  | deny : Decision
deriving DecidableEq

/-- Outcome of the `/hook/permission` route up to the point where either an
immediate decision is returned or the request is forwarded to the external
decision channel (`bot.requestApproval`) with an optional escalation
warning attached. -/
inductive PermissionOutcome where
  | decided : Decision → String → PermissionOutcome
  | askChannel : Option String → PermissionOutcome
  | evalError : PermissionOutcome

/-- Rendering of a rule action as in the reason string fallback. -/
def RuleAction.str : RuleAction → String
  | .allow => "allow"
  | .deny => "deny"

/-- The reason text for a matched rule:
`Rule: name - (reason || action)` with JS falsiness on the empty string. -/
def matchedRuleReason (rule : AutoApproveRule) : String :=
  let fallback := rule.action.str
  let r :=
    match rule.reason with
    | some s => if s == "" then fallback else s
    | none => fallback
  "Rule: " ++ rule.name ++ " - " ++ r

/-- The `/hook/permission` route of `src/server.ts`: AskUserQuestion is
intercepted and allowed; otherwise rule evaluation decides immediately when
a rule matches; otherwise the escalation level is computed and the request
is auto-approved (Allow All mode), denied (no chat connected), or forwarded
to the decision channel with a warning when the level is not `safe`. -/
def hookPermission (payload : HookPayload) (rules : List AutoApproveRule)
    (autoApproveMode : Bool) (chatConnected : Bool) : PermissionOutcome :=
  if payload.tool_name == "AskUserQuestion" then
    .decided .allow "AskUserQuestion intercepted for Telegram"
  else
    match evaluateAutoApproveRules payload rules with
    | .error _ => .evalError
    | .ok (some rule) =>
      .decided (match rule.action with | .allow => .allow | .deny => .deny)
        (matchedRuleReason rule)
    | .ok none =>
      let escalation := classifyEscalation payload
      if autoApproveMode then .decided .allow "Auto-approved (Allow All mode)"
      else if !chatConnected then .decided .deny "No Telegram chat connected"
      else .askChannel
        (if escalation.level ≠ .safe then some (formatEscalationWarning escalation)
          else none)

/- ===================== Concrete payloads for scenarios ===================== -/

/-- The tool request of end-to-end scenario B. -/
def scenarioBPayload : HookPayload :=
  { session_id := "sess-1"
    transcript_path := "/tmp/transcript"
    cwd := "/tmp"
    hook_event_name := "PreToolUse"
    tool_name := "Bash"
    tool_input :=
      { command := some "rm -rf /tmp/x"
        file_path := none
        path := none
        serialized := "" } }

/-- A payload used to exercise rule-evaluation errors. -/
def basicBashPayload : HookPayload :=
  { session_id := "sess-2"
    transcript_path := "/tmp/transcript"
    cwd := "/home/user/project"
    hook_event_name := "PreToolUse"
    tool_name := "Bash"
    tool_input :=
      { command := some "ls -la"
        file_path := none
        path := none
        serialized := "" } }

/-- A rule whose cwd pattern string is malformed: `new RegExp` throws on it
while the rule is being matched. -/
def malformedCwdRule : AutoApproveRule :=
  { name := "bad-rule"
    rmatch :=
      { toolName := none
        cwdPattern := some .malformed
        commandPattern := none
        filePattern := none }
    action := .allow
    reason := none }

/-- A rule with no criteria: it matches every request. -/
def catchAllRule : AutoApproveRule :=
  { name := "catch-all"
    rmatch :=
      { toolName := none, cwdPattern := none, commandPattern := none
        filePattern := none }
    action := .allow
    reason := none }

/- ===================== Session supervisor data model ===================== -/

/-- Session status (`src/core/session-manager.ts`). -/
inductive SessionStatus where
  | active : SessionStatus
  | waiting : SessionStatus
  | completed : SessionStatus
deriving DecidableEq

/-- Permission mode of a session. -/
inductive PermissionMode where
  | plan : PermissionMode
  | auto : PermissionMode
  | ask : PermissionMode
  | defaultMode : PermissionMode
deriving DecidableEq

/-- Prompt classification produced by the output parser
(`src/core/output-parser.ts`). -/
inductive PromptType where
  | multi_option : PromptType
  | permission : PromptType
  | yes_no : PromptType
  | text_input : PromptType
  | completion : PromptType
deriving DecidableEq

/-- One option of a parsed prompt. -/
structure PromptOption where
  index : Nat
  label : String
  description : Option String
  isSelected : Option Bool
deriving DecidableEq

/-- `ParsedPrompt` from `src/core/output-parser.ts`. -/
structure ParsedPrompt where
  type : PromptType
  question : Option String
  options : Option (List PromptOption)
  raw : String
deriving DecidableEq

/-- A supervised PTY session.  The `pty` process handle is an external OS
resource and is not part of the shallow embedding; its effects appear as
the write/kill operations below.  `createdAt` and `lastPromptTime` are
millisecond timestamps. -/
structure Session where
  id : String
  buffer : List String
  rawBuffer : String
  status : SessionStatus
  cwd : String
  task : String
  createdAt : Nat
  currentPrompt : Option ParsedPrompt
  permissionMode : PermissionMode
  lastPromptTime : Option Nat
deriving DecidableEq

/-- `MAX_BUFFER_LINES` from the source. -/
def MAX_BUFFER_LINES : Nat := 100

/-- `MAX_RAW_BUFFER_SIZE` from the source. -/
def MAX_RAW_BUFFER_SIZE : Nat := 50000

/-- Events raised by the session manager (`output`, `prompt`, `exit`). -/
inductive SessionEvent where
  | outputEv : String → String → SessionEvent
  | promptEv : String → ParsedPrompt → SessionEvent
  | exitEv : String → Int → SessionEvent
deriving DecidableEq

/-- JavaScript `Map` lookup on an insertion-ordered association list. -/
def jsMapGet {κ α : Type} [BEq κ] (m : List (κ × α)) (k : κ) : Option α :=
  (m.find? (fun p => p.1 == k)).map (fun p => p.2)

/-- JavaScript `Map.set`: update in place when the key exists, append
otherwise. -/
def jsMapSet {κ α : Type} [BEq κ] (m : List (κ × α)) (k : κ) (v : α) :
    List (κ × α) :=
  if m.any (fun p => p.1 == k) then
    m.map (fun p => if p.1 == k then (k, v) else p)
  else m ++ [(k, v)]

/-- JavaScript `Map.delete` (ignoring the returned boolean). -/
def jsMapDelete {κ α : Type} [BEq κ] (m : List (κ × α)) (k : κ) :
    List (κ × α) :=
  m.filter (fun p => !(p.1 == k))

/-- JavaScript `Map.has`. -/
def jsMapHas {κ α : Type} [BEq κ] (m : List (κ × α)) (k : κ) : Bool :=
  m.any (fun p => p.1 == k)

/-- The private registry of the `SessionManager` class: the `sessions` map
in insertion order and the monotonically increasing `sessionCounter`. -/
structure SessionManagerState where
  sessions : List (String × Session)
  sessionCounter : Nat
deriving DecidableEq

/-- The registry at process start. -/
def initialManager : SessionManagerState :=
  { sessions := [], sessionCounter := 0 }

/-- `spawn`: allocate the next id `session-${++sessionCounter}`, create the
session with status `active` and empty buffers, and register it.  The
actual PTY process start is external to the model (the claim settled on
this operation concerns id allocation and registration only). -/
def spawn (st : SessionManagerState) (task cwd : String) (mode : PermissionMode)
    (now : Nat) : SessionManagerState × Session :=
  let counter := st.sessionCounter + 1
  let id := "session-" ++ toString counter
  let session : Session :=
    { id := id
      buffer := []
      rawBuffer := ""
      status := .active
      cwd := cwd
      task := task
      createdAt := now
      currentPrompt := none
      permissionMode := mode
      lastPromptTime := none }
  ({ sessions := jsMapSet st.sessions id session, sessionCounter := counter },
    session)

/-- One iteration of the rolling-buffer loop of `handleOutput`: skip blank
lines, push, and shift the oldest line out when over the cap. -/
def pushLine (buf : List String) (line : String) : List String :=
  if line.trim == "" then buf
  else
    let b2 := buf ++ [line]
    if b2.length > MAX_BUFFER_LINES then b2.drop 1 else b2

/-- `handleOutput` (`src/core/session-manager.ts` lines 118-161).  The
`parsed` argument is `outputParser.parse data`; the parser itself is a
stateless collaborator and the claims settled here quantify over its
result.  Returns the updated session and the events emitted, in order. -/
def handleOutput (s : Session) (data : String) (parsed : Option ParsedPrompt)
    (now : Nat) : Session × List SessionEvent :=
  let buffer := (data.splitOn "\n").foldl pushLine s.buffer
  let raw0 := s.rawBuffer ++ data
  let rawBuffer :=
    if raw0.length > MAX_RAW_BUFFER_SIZE then
      raw0.drop (raw0.length - MAX_RAW_BUFFER_SIZE)
    else raw0
  let s1 := { s with buffer := buffer, rawBuffer := rawBuffer }
  let evs := [SessionEvent.outputEv s.id data]
  match parsed with
  | none => (s1, evs)
  | some prompt =>
    let isDifferentPrompt :=
      match s.currentPrompt with
      | none => true
      | some cp => decide (cp.type ≠ prompt.type)
    let isDebounceExpired :=
      match s.lastPromptTime with
      | none => true
      | some t => if t == 0 then true else decide ((now : Int) - (t : Int) > 2000)
    if isDifferentPrompt || isDebounceExpired then
      ({ s1 with
          status := SessionStatus.waiting
          currentPrompt := some prompt
          lastPromptTime := some now },
        evs ++ [SessionEvent.promptEv s.id prompt])
    else
      ({ s1 with currentPrompt := some prompt }, evs)

/-- `sendInput`: fails when the session is unknown or completed; otherwise
writes the input to the PTY (returned as the write list), sets status to
`active` and clears the tracked prompt. -/
def sendInput (st : SessionManagerState) (sessionId input : String) :
    SessionManagerState × Bool × List (String × String) :=
  match jsMapGet st.sessions sessionId with
  | none => (st, false, [])
  | some session =>
    if session.status = .completed then (st, false, [])
    else
      let s2 := { session with status := SessionStatus.active, currentPrompt := none }
      ({ st with sessions := jsMapSet st.sessions sessionId s2 }, true,
        [(sessionId, input)])

/-- The loop body of `findSessionByCwd`: first session (in map insertion
order) whose working directory matches exactly and which is not completed. -/
def findByCwdGo : List (String × Session) → String → Option Session
  | [], _ => none
  | (_, s) :: rest, cwd =>
    if s.cwd == cwd && !(s.status == .completed) then some s
    else findByCwdGo rest cwd

/-- `findSessionByCwd`. -/
def findSessionByCwd (st : SessionManagerState) (cwd : String) : Option Session :=
  findByCwdGo st.sessions cwd

/-- `kill`: unknown session fails; otherwise the PTY is killed and the
status set to `completed` (unconditionally, whatever the current status). -/
def kill (st : SessionManagerState) (sessionId : String) :
    SessionManagerState × Bool :=
  match jsMapGet st.sessions sessionId with
  | none => (st, false)
  | some session =>
    ({ st with sessions := (jsMapSet st.sessions sessionId
        { session with status := SessionStatus.completed }) }, true)

/-- `killAll`: kill every non-completed session. -/
def killAll (st : SessionManagerState) : SessionManagerState :=
  { st with sessions := st.sessions.map (fun p =>
      if p.2.status ≠ .completed then (p.1, { p.2 with status := SessionStatus.completed })
      else p) }

/-- `cleanup`: remove completed sessions, returning how many were removed. -/
def cleanup (st : SessionManagerState) : SessionManagerState × Nat :=
  ({ st with sessions := st.sessions.filter (fun p => p.2.status ≠ .completed) },
    (st.sessions.filter (fun p => p.2.status = .completed)).length)

/-- The `onExit` PTY callback: mark the session completed (the exit event
is raised to listeners). -/
def sessionExit (st : SessionManagerState) (sessionId : String) :
    SessionManagerState :=
  match jsMapGet st.sessions sessionId with
  | none => st
  | some session =>
    { st with sessions := (jsMapSet st.sessions sessionId
        { session with status := SessionStatus.completed }) }

/- ===================== Session status traces ===================== -/

/-- Operations that can touch one session's status, as they appear in the
source: a PTY output callback (`handleOutput`, with the parser result and
the current time), `sendInput` on a registered session, `kill`, and the
PTY `onExit` callback. -/
inductive SessionOp where
  | out : String → Option ParsedPrompt → Nat → SessionOp
  | input : String → SessionOp
  | kill : SessionOp
  | exit : Int → SessionOp

/-- Effect of one operation on one (registered) session, exactly as the
source performs it: `sendInput` refuses completed sessions, `kill` and
`onExit` set `completed` unconditionally, and `handleOutput` performs no
status check at all. -/
def sessionStep (s : Session) : SessionOp → Session
  | .out data parsed now => (handleOutput s data parsed now).1
  | .input _ =>
    if s.status = .completed then s
    else { s with status := SessionStatus.active, currentPrompt := none }
  | .kill => { s with status := SessionStatus.completed }
  | .exit _ => { s with status := SessionStatus.completed }

/-- Statuses after each operation of a run. -/
def runStatuses : Session → List SessionOp → List SessionStatus
  | _, [] => []
  | s, op :: rest => (sessionStep s op).status :: runStatuses (sessionStep s op) rest

/-- The status sequence of a run, starting from the initial status. -/
def statusTrace (s : Session) (ops : List SessionOp) : List SessionStatus :=
  s.status :: runStatuses s ops

/-- Remove stuttering after a given previous element. -/
def squashAfter : SessionStatus → List SessionStatus → List SessionStatus
  | _, [] => []
  | prev, x :: rest =>
    if x == prev then squashAfter prev rest else x :: squashAfter x rest

/-- Remove consecutive repetitions: the sequence of status values a session
"takes", with stuttering collapsed. -/
def squashTrace : List SessionStatus → List SessionStatus
  | [] => []
  | x :: rest => x :: squashAfter x rest

/-- Acceptance of the suffix language `(waiting active)* completed` (the
part of the claimed language after the leading `active`). -/
def claimLangAfterActive : List SessionStatus → Bool
  | [.completed] => true
  | .waiting :: .active :: rest => claimLangAfterActive rest
  | _ => false

/-- The regular language `active (waiting active)* completed` of the claim. -/
def inClaimLang : List SessionStatus → Bool
  | .active :: rest => claimLangAfterActive rest
  | _ => false

/-- Acceptance of the suffix language `(waiting active)* waiting? completed?`
(the amended language after the leading `active`). -/
def amendedAfterActive : List SessionStatus → Bool
  | [] => true
  | [.completed] => true
  | [.waiting] => true
  | [.waiting, .completed] => true
  | .waiting :: .active :: rest => amendedAfterActive rest
  | _ => false

/-- The amended regular language
`active (waiting active)* waiting? completed?` on squashed traces. -/
def inAmendedLang : List SessionStatus → Bool
  | .active :: rest => amendedAfterActive rest
  | _ => false

/-- Allowed consecutive pair of statuses in the amended raw-trace language:
`completed` is absorbing, everything else is unrestricted. -/
def amendedStep : SessionStatus → SessionStatus → Bool
  | .completed, .completed => true
  | .completed, _ => false
  | _, _ => true

/-- The raw trace respects `amendedStep` from a given previous status. -/
def goodFrom : SessionStatus → List SessionStatus → Bool
  | _, [] => true
  | prev, x :: rest => amendedStep prev x && goodFrom x rest

/-- Raw-trace acceptance: starts at `active` and never leaves `completed`. -/
def amendedAccepts : List SessionStatus → Bool
  | .active :: rest => goodFrom .active rest
  | _ => false

/-- Residual acceptance of the amended language after having just read the
given status (used to relate squashed traces to `goodFrom` runs). -/
def resid : SessionStatus → List SessionStatus → Bool
  | .active, l => amendedAfterActive l
  | .waiting, [] => true
  | .waiting, [.completed] => true
  | .waiting, .active :: rest => amendedAfterActive rest
  | .waiting, _ => false
  | .completed, [] => true
  | .completed, _ => false

/-- Is the operation a PTY output callback? -/
def isOutOp : SessionOp → Bool
  | .out _ _ _ => true
  | _ => false

/-- A run handles no output while the session is completed (PTY data events
stop once the process has exited and its remaining output was flushed). -/
def noOutOnCompleted : Session → List SessionOp → Bool
  | _, [] => true
  | s, op :: rest =>
    (!(isOutOp op && s.status == .completed)) &&
      noOutOnCompleted (sessionStep s op) rest

/-- A multi-option prompt used in concrete runs. -/
def sampleMultiPrompt : ParsedPrompt :=
  { type := .multi_option
    question := some "Proceed?"
    options := some
      [ { index := 1, label := "Yes", description := none, isSelected := some true }
      , { index := 2, label := "No", description := none, isSelected := some false } ]
    raw := "Proceed?\n1. Yes\n2. No" }

/-- A completion prompt (as classified by the output parser). -/
def completionPrompt : ParsedPrompt :=
  { type := .completion
    question := none
    options := none
    raw := "Task completed" }

/-- A freshly spawned session. -/
def freshSession : Session :=
  (spawn initialManager "demo task" "/a" .defaultMode 0).2

/-- A concrete run: a prompt is detected (status `waiting`), the session is
killed, and a late flushed output chunk classifies another prompt. -/
def c8Ops : List SessionOp :=
  [ .out "1. Yes\n2. No\n" (some sampleMultiPrompt) 1000
  , .kill
  , .out "Task completed\n" (some completionPrompt) 2000 ]

/-- A registry holding two live sessions with the same working directory,
the second spawned later. -/
def twoSessionState : SessionManagerState :=
  (spawn (spawn initialManager "t1" "/a" .defaultMode 0).1 "t2" "/a"
    .defaultMode 1000).1

/-- The session matching predicate of `findSessionByCwd`. -/
def sessionMatchesCwd (cwd : String) (s : Session) : Prop :=
  s.cwd = cwd ∧ s.status ≠ .completed

/-- The prompts carried by the emitted `prompt` events of an event list. -/
def emittedPrompts (evs : List SessionEvent) : List ParsedPrompt :=
  evs.filterMap (fun e =>
    match e with
    | .promptEv _ p => some p
    | _ => none)

/- ===================== Registry runs (session ids) ===================== -/

/-- Registry-level operations of the session manager. -/
inductive ManagerOp where
  | spawnOp : String → String → PermissionMode → Nat → ManagerOp
  | sendInputOp : String → String → ManagerOp
  | killOp : String → ManagerOp
  | killAllOp : ManagerOp
  | cleanupOp : ManagerOp
  | exitOp : String → ManagerOp

/-- Apply one registry operation; returns the ids of the sessions the
operation returned to its caller (only `spawn` returns one). -/
def applyManagerOp (st : SessionManagerState) :
    ManagerOp → SessionManagerState × List String
  | .spawnOp task cwd mode now =>
    let r := spawn st task cwd mode now
    (r.1, [r.2.id])
  | .sendInputOp id input => ((sendInput st id input).1, [])
  | .killOp id => ((kill st id).1, [])
  | .killAllOp => (killAll st, [])
  | .cleanupOp => ((cleanup st).1, [])
  | .exitOp id => (sessionExit st id, [])

/-- Run a list of registry operations, collecting every id ever returned by
`spawn`, in order. -/
def runManager : SessionManagerState → List ManagerOp → SessionManagerState × List String
  | st, [] => (st, [])
  | st, op :: rest =>
    let r := applyManagerOp st op
    let r2 := runManager r.1 rest
    (r2.1, r.2 ++ r2.2)

/-- The id rendered for counter value `n`. -/
def mkSessionId (n : Nat) : String := "session-" ++ toString n

/-- Numeric value of a decimal digit character. -/
def digitVal (c : Char) : Nat := c.toNat - 48

/-- Decimal value of a most-significant-first digit string. -/
def ofDigits (l : List Char) : Nat :=
  l.foldl (fun a c => a * 10 + digitVal c) 0

/- ===================== Decision broker: pending approvals ===================== -/

/-- `ApprovalRequest` from `src/telegram/bot.ts`.  The `resolve` field of
the source is the single-use resolution callback of the hook promise;
invoking it is recorded in the `resolutions` log of `BotState`. -/
structure ApprovalRequest where
  id : String
  sessionId : String
  toolName : String
  toolInput : ToolInput
  cwd : String
  timestamp : Nat
deriving DecidableEq

/-- Outbound messages of the bot relevant to the approval lifecycle. -/
inductive BotNotification where
  | approvalMessage : String → Option String → BotNotification
  | timeoutWarning : String → BotNotification
  | timedOutAutoDenied : String → BotNotification
  | decisionEdit : String → Decision → BotNotification
  | autoApproveEnabledEdit : String → BotNotification
  | callbackAnswer : String → BotNotification
deriving DecidableEq

/-- The two one-shot timers armed by `requestApproval`. -/
inductive TimerKind where
  | warn : TimerKind
  | autoDeny : TimerKind
deriving DecidableEq

/-- A scheduled timer callback (absolute firing time in milliseconds). -/
structure ScheduledTimer where
  requestId : String
  fireAt : Nat
  kind : TimerKind
deriving DecidableEq

/-- The approval-related state of the `TelegramBot` class, together with
the observable logs: every invocation of a pending request's single-use
`resolve` callback (with its decision) and every outbound notification. -/
structure BotState where
  pendingApprovals : List (String × ApprovalRequest)
  autoApproveMode : Bool
  autoApproveStartTime : Option Nat
  autoApproveCount : Nat
  resolutions : List (String × Decision)
  notifications : List BotNotification
  timers : List ScheduledTimer
deriving DecidableEq

/-- A bot with no pending approvals. -/
def emptyBotState : BotState :=
  { pendingApprovals := []
    autoApproveMode := false
    autoApproveStartTime := none
    autoApproveCount := 0
    resolutions := []
    notifications := []
    timers := [] }

/-- The registration part of `requestApproval`: send the approval message
(with the optional escalation warning), store the pending entry, and arm
the 8-minute warning timer and the 10-minute auto-deny timer. -/
def requestApprovalRegister (st : BotState) (id sessionId toolName : String)
    (toolInput : ToolInput) (cwd : String) (escalationWarning : Option String)
    (now : Nat) : BotState :=
  { st with
    notifications := st.notifications ++ [.approvalMessage id escalationWarning]
    pendingApprovals := jsMapSet st.pendingApprovals id
      { id := id, sessionId := sessionId, toolName := toolName
        toolInput := toolInput, cwd := cwd, timestamp := now }
    timers := st.timers ++
      [ { requestId := id, fireAt := now + 8 * 60 * 1000, kind := .warn }
      , { requestId := id, fireAt := now + 10 * 60 * 1000, kind := .autoDeny } ] }

/-- The 8-minute timer callback: if the id is still pending, send the
timeout warning; it never resolves or removes anything. -/
def fireWarnTimer (st : BotState) (id : String) : BotState :=
  if jsMapHas st.pendingApprovals id then
    { st with notifications := st.notifications ++ [.timeoutWarning id] }
  else st

/-- The 10-minute timer callback: if the id is still pending, remove the
entry, invoke its `resolve` with `deny`, and edit the message to
"Timed Out - Auto-Denied"; otherwise do nothing at all. -/
def fireAutoDenyTimer (st : BotState) (id : String) : BotState :=
  if jsMapHas st.pendingApprovals id then
    { st with
      pendingApprovals := jsMapDelete st.pendingApprovals id
      resolutions := st.resolutions ++ [(id, Decision.deny)]
      notifications := st.notifications ++ [.timedOutAutoDenied id] }
  else st

/-- The explicit allow/deny branch of the `callback_query` handler: if the
id is unknown the callback is answered with "Request expired or not found"
and nothing else happens; otherwise `resolve` is invoked with the decision
and the entry is removed. -/
def callbackDecision (st : BotState) (id : String) (decision : Decision) : BotState :=
  match jsMapGet st.pendingApprovals id with
  | none =>
    { st with notifications := st.notifications ++
        [.callbackAnswer "Request expired or not found"] }
  | some _ =>
    let text := match decision with | .allow => "Approved" | .deny => "Denied"
    { st with
      resolutions := st.resolutions ++ [(id, decision)]
      pendingApprovals := jsMapDelete st.pendingApprovals id
      notifications := st.notifications ++
        [.decisionEdit id decision, .callbackAnswer (text ++ "!")] }

/-- The `allowall` branch of the `callback_query` handler: auto-approve
mode is enabled unconditionally; the current request, when still pending,
is resolved `allow` and removed. -/
def callbackAllowAll (st : BotState) (id : String) (now : Nat) : BotState :=
  let st1 := { st with
    autoApproveMode := true
    autoApproveStartTime := some now
    autoApproveCount := 0 }
  let st2 :=
    match jsMapGet st.pendingApprovals id with
    | some _ =>
      { st1 with
        resolutions := st1.resolutions ++ [(id, Decision.allow)]
        pendingApprovals := jsMapDelete st1.pendingApprovals id
        autoApproveCount := st1.autoApproveCount + 1
        notifications := st1.notifications ++ [BotNotification.autoApproveEnabledEdit id] }
    | none => st1
  { st2 with notifications := st2.notifications ++
      [BotNotification.callbackAnswer "Auto-approve enabled!"] }

/-- A bot state with one registered pending approval `req-1`, created at
time 0. -/
def oneApprovalState : BotState :=
  requestApprovalRegister emptyBotState "req-1" "sess-1" "Bash"
    basicBashPayload.tool_input "/tmp" none 0

/- ===================== Pending question sets ===================== -/

/-- `AskUserQuestionOption` from `src/core/types.ts`. -/
structure AskUserQuestionOption where
  label : String
  description : Option String
deriving DecidableEq

/-- `AskUserQuestionItem` from `src/core/types.ts`. -/
structure AskUserQuestionItem where
  question : String
  header : String
  options : List AskUserQuestionOption
  multiSelect : Bool
deriving DecidableEq

/-- `PendingAskUserQuestion` from `src/core/types.ts`: selections are a
`Map` from question index to an insertion-ordered `Set` of option indices
(`-1` denotes custom free text); `customTexts` is optional in the source. -/
structure PendingAskUserQuestion where
  requestId : String
  questions : List AskUserQuestionItem
  sessionCwd : String
  messageIds : List Nat
  selections : List (Nat × List Int)
  customTexts : Option (List (Nat × String))
  createdAt : Nat
deriving DecidableEq

/-- JavaScript `Set.has` on an insertion-ordered duplicate-free list. -/
def jsSetHas (s : List Int) (x : Int) : Bool := s.contains x

/-- The `DOWN` arrow-key escape sequence of `buildKeystrokesForAnswer`. -/
def DOWN_KEY : String := "\x1b[B"

/-- The `ENTER` keystroke. -/
def ENTER_KEY : String := "\r"

/-- The `SPACE` keystroke. -/
def SPACE_KEY : String := " "

/-- Repeat a keystroke `n` times. -/
def repStr (s : String) (n : Nat) : String := String.join (List.replicate n s)

/-- The loop body of `buildKeystrokesForAnswer` for one question: custom
free text navigates to the "Type something" option, types the text and
confirms; multi-select moves to each selected option (ascending) pressing
space, then confirms; single-select moves to the first selected option and
confirms.  JavaScript truthiness makes an empty custom text fall through
to the select branches. -/
def keystrokesForQuestion (question : AskUserQuestionItem) (selected : List Int)
    (customText : Option String) : String :=
  let isCustom := jsSetHas selected (-1)
  let hasText := match customText with | some t => t ≠ "" | none => false
  if isCustom && hasText then
    let t := customText.getD ""
    let typeOptionIndex := min 2 (question.options.length - 1)
    repStr DOWN_KEY typeOptionIndex ++ ENTER_KEY ++ t ++ ENTER_KEY
  else if question.multiSelect then
    let selectedIndices :=
      (selected.filter (fun i => decide (i ≥ 0))).mergeSort (fun a b => decide (a ≤ b))
    let folded := selectedIndices.foldl
      (fun (acc : String × Int) optIndex =>
        (acc.1 ++ repStr DOWN_KEY (optIndex - acc.2).toNat ++ SPACE_KEY, optIndex))
      ("", 0)
    folded.1 ++ ENTER_KEY
  else
    let choice : Int := match selected with | [] => 0 | x :: _ => max 0 x
    repStr DOWN_KEY choice.toNat ++ ENTER_KEY

/-- `buildKeystrokesForAnswer`: concatenation of the per-question
keystrokes, in question order. -/
def buildKeystrokesForAnswer (questions : List AskUserQuestionItem)
    (selections : List (Nat × List Int))
    (customTexts : Option (List (Nat × String))) : String :=
  String.join (questions.enum.map (fun p =>
    keystrokesForQuestion p.2 ((jsMapGet selections p.1).getD [])
      (match customTexts with
       | some m => jsMapGet m p.1
       | none => none)))

/-- The state touched by a question-set submission: the pending-question
map and the session registry. -/
structure QuestionBrokerState where
  pendingQuestions : List (String × PendingAskUserQuestion)
  sessionManager : SessionManagerState
deriving DecidableEq

/-- Outcome of a submit attempt through the `askq_submit` callback. -/
inductive SubmitOutcome where
  | expired : SubmitOutcome
  | rejectedUnanswered : Nat → String → SubmitOutcome
  | submitted : SubmitOutcome
  | failed : SubmitOutcome
deriving DecidableEq

/-- The validation loop of the `askq_submit` handler: index of the first
question whose selection set is missing or empty. -/
def findFirstUnanswered (pending : PendingAskUserQuestion) : Option Nat :=
  (List.range pending.questions.length).find?
    (fun i => ((jsMapGet pending.selections i).getD []).isEmpty)

/-- `submitAskUserQuestionAnswer`: look up the pending set, find the
session by cwd, build the combined keystroke sequence, deliver it with one
`sendInput` call, and delete the pending entry on success.  Returns the
new state, the success flag, and the PTY writes performed. -/
def submitAskUserQuestionAnswer (st : QuestionBrokerState) (requestId : String) :
    QuestionBrokerState × Bool × List (String × String) :=
  match jsMapGet st.pendingQuestions requestId with
  | none => (st, false, [])
  | some pending =>
    match findSessionByCwd st.sessionManager pending.sessionCwd with
    | none => (st, false, [])
    | some session =>
      let keystrokes := buildKeystrokesForAnswer pending.questions
        pending.selections pending.customTexts
      let r := sendInput st.sessionManager session.id keystrokes
      if r.2.1 then
        ({ pendingQuestions := jsMapDelete st.pendingQuestions requestId
           sessionManager := r.1 }, true, r.2.2)
      else
        ({ st with sessionManager := r.1 }, false, r.2.2)

/-- The header text used when rejecting an unanswered question
(JavaScript falsiness: an empty header falls back to `Question N`). -/
def unansweredName (pending : PendingAskUserQuestion) (i : Nat) : String :=
  match pending.questions.get? i with
  | some q => if q.header ≠ "" then q.header else "Question " ++ toString (i + 1)
  | none => "Question " ++ toString (i + 1)

/-- The `askq_submit` branch of the `callback_query` handler: expired ids
are answered as expired; a set with an unanswered question is rejected
identifying that question and nothing changes; otherwise the submission is
attempted. -/
def askqSubmitCallback (st : QuestionBrokerState) (requestId : String) :
    QuestionBrokerState × SubmitOutcome × List (String × String) :=
  match jsMapGet st.pendingQuestions requestId with
  | none => (st, .expired, [])
  | some pending =>
    match findFirstUnanswered pending with
    | some i => (st, .rejectedUnanswered i (unansweredName pending i), [])
    | none =>
      let r := submitAskUserQuestionAnswer st requestId
      (r.1, if r.2.1 then .submitted else .failed, r.2.2)

/-- The single-select question of the keystroke-synthesis scenario, with
four options A, B, C, D. -/
def c9Question : AskUserQuestionItem :=
  { question := "Pick one"
    header := "Q1"
    options :=
      [ { label := "A", description := none }
      , { label := "B", description := none }
      , { label := "C", description := none }
      , { label := "D", description := none } ]
    multiSelect := false }

/- ===================== Concrete scenario states ===================== -/

/-- The first question of the two-question scenario. -/
def scenarioDQ1 : AskUserQuestionItem :=
  { question := "First?"
    header := "H1"
    options := [ { label := "A", description := none }
               , { label := "B", description := none } ]
    multiSelect := false }

/-- The second question of the two-question scenario. -/
def scenarioDQ2 : AskUserQuestionItem :=
  { question := "Second?"
    header := "H2"
    options := [ { label := "X", description := none }
               , { label := "Y", description := none } ]
    multiSelect := false }

/-- A two-question pending set where question 0 is answered and question 1
is not. -/
def pendingPartial : PendingAskUserQuestion :=
  { requestId := "req-9"
    questions := [scenarioDQ1, scenarioDQ2]
    sessionCwd := "/a"
    messageIds := [11, 12]
    selections := [(0, [1])]
    customTexts := none
    createdAt := 0 }

/-- The same set after question 1 also received a selection. -/
def pendingFull : PendingAskUserQuestion :=
  { pendingPartial with selections := [(0, [1]), (1, [0])] }

/-- A registry holding one live session in `/a`. -/
def oneSessionSM : SessionManagerState :=
  (spawn initialManager "t" "/a" .defaultMode 0).1

/-- Broker state: partially answered set, live session available. -/
def brokerPartial : QuestionBrokerState :=
  { pendingQuestions := [("req-9", pendingPartial)], sessionManager := oneSessionSM }

/-- Broker state: fully answered set, live session available. -/
def brokerFull : QuestionBrokerState :=
  { pendingQuestions := [("req-9", pendingFull)], sessionManager := oneSessionSM }

/-- Broker state: fully answered set but an empty session registry. -/
def brokerFullNoSession : QuestionBrokerState :=
  { pendingQuestions := [("req-9", pendingFull)], sessionManager := initialManager }

/-- The session value stored for the first spawn of `twoSessionState`. -/
def firstSpawnedSession : Session :=
  (spawn initialManager "t1" "/a" .defaultMode 0).2

/-- The pending approval stored in `oneApprovalState`. -/
def req1Record : ApprovalRequest :=
  { id := "req-1", sessionId := "sess-1", toolName := "Bash"
    toolInput := basicBashPayload.tool_input, cwd := "/tmp", timestamp := 0 }

/-- Well-formedness of the session registry, maintained by the manager:
every stored session's `id` equals its map key and the keys are distinct. -/
def RegistryWF (st : SessionManagerState) : Prop :=
  (∀ p ∈ st.sessions, p.2.id = p.1) ∧ (st.sessions.map Prod.fst).Nodup

/-- A run used as a witness: a prompt, an input, then a kill. -/
def witnessOps : List SessionOp :=
  [ .out "1. Yes\n2. No\n" (some sampleMultiPrompt) 1000
  , .input "1"
  , .kill ]

/-- The session value stored in `oneSessionSM`. -/
def oneSpawnedSession : Session :=
  (spawn initialManager "t" "/a" .defaultMode 0).2

/- ===================== Helper lemmas ===================== -/

theorem jsMapHas_eq_isSome {κ α : Type} [BEq κ] (m : List (κ × α)) (k : κ) :
    jsMapHas m k = (jsMapGet m k).isSome := by
  induction m with
  | nil => rfl
  | cons p rest ih =>
    by_cases h : p.1 == k
    · simp [jsMapHas, jsMapGet, List.any_cons, List.find?, h]
    · simp only [jsMapHas, jsMapGet, List.any_cons, List.find?] at *
      simp [h] at *
      exact ih

theorem jsMapGet_delete_self {κ α : Type} [BEq κ] (m : List (κ × α)) (k : κ) :
    jsMapGet (jsMapDelete m k) k = none := by
  induction m with
  | nil => rfl
  | cons p rest ih =>
    by_cases h2 : (p.1 == k) = true
    · simp only [jsMapDelete, List.filter_cons, h2, Bool.not_true, ite_false]
      exact ih
    · have h2f : (p.1 == k) = false := by simpa using h2
      simp only [jsMapDelete, List.filter_cons, h2f, Bool.not_false, ite_true, jsMapGet,
        List.find?_cons, h2f]
      exact ih

/- ===================== Claims C6 and C7 ===================== -/

/-- C6 (counterexample): the claim asserts that the default deny-rm-rf rule
does not match the request `Bash, rm -rf /tmp/x` and that the request falls
through to the decision-channel path.  In fact the rule's pattern
`rm\s+(-[^\s]*)?r[^\s]*f|...` matches the command (the optional flag group
can match just the dash), so rule evaluation matches deny-rm-rf and the
permission hook auto-denies immediately; the decision channel is never
consulted. -/
theorem c6_counterexample :
    matchesRule scenarioBPayload denyRmRfRule = Except.ok true ∧
    hookPermission scenarioBPayload getDefaultRules false true =
      PermissionOutcome.decided .deny
        "Rule: deny-rm-rf - Recursive force delete is too dangerous to auto-approve" :=
  ⟨rfl, rfl⟩

/-- C6 (amended): for the tool request `Bash, rm -rf /tmp/x`, escalation
classification returns level dangerous with exactly the recursive-delete
pattern matched, the default deny-rm-rf rule DOES match the request, and
the permission hook therefore returns an immediate deny with that rule's
reason instead of forwarding the request to the decision channel. -/
theorem c6_escalation_and_rule :
    (classifyEscalation scenarioBPayload).level = .dangerous ∧
    (classifyEscalation scenarioBPayload).patterns = ["Recursive delete"] ∧
    evaluateAutoApproveRules scenarioBPayload getDefaultRules =
      Except.ok (some denyRmRfRule) ∧
    denyRmRfRule.action = .deny ∧
    hookPermission scenarioBPayload getDefaultRules false true =
      PermissionOutcome.decided .deny (matchedRuleReason denyRmRfRule) :=
  ⟨rfl, rfl, rfl, rfl, rfl⟩

/-- C7 (counterexample): the claim asserts that a rule whose predicate
evaluation throws is treated as not matching and evaluation continues with
the remaining rules.  In fact the source loop has no try/catch: with a
malformed-pattern rule followed by a rule that matches the payload,
evaluation raises instead of returning the later match. -/
theorem c7_counterexample :
    evaluateAutoApproveRules basicBashPayload [malformedCwdRule, catchAllRule] =
      Except.error () ∧
    evaluateAutoApproveRules basicBashPayload [catchAllRule] =
      Except.ok (some catchAllRule) :=
  ⟨rfl, rfl⟩

/-- C7 (amended): an exception raised while evaluating one rule's predicate
propagates out of `evaluateAutoApproveRules` to its caller, and the rules
after the throwing rule are not evaluated at all. -/
theorem c7_rule_exception_propagates (payload : HookPayload) (r : AutoApproveRule)
    (rest : List AutoApproveRule) (e : Unit)
    (h : matchesRule payload r = Except.error e) :
    evaluateAutoApproveRules payload (r :: rest) = Except.error e := by
  simp [evaluateAutoApproveRules, h]

/-- Witness for `c7_rule_exception_propagates` at a concrete rule list. -/
theorem c7_rule_exception_propagates_witness :
    matchesRule basicBashPayload malformedCwdRule = Except.error () ∧
    evaluateAutoApproveRules basicBashPayload (malformedCwdRule :: [catchAllRule]) =
      Except.error () :=
  ⟨rfl, c7_rule_exception_propagates basicBashPayload malformedCwdRule
    [catchAllRule] () rfl⟩

/- ===================== Claims C1 and C2 ===================== -/

/-- C1: every pending approval is resolved at most once.  Each resolution
path (explicit allow/deny callback, allow-all callback, 10-minute auto-deny
timer) checks the pending map and, when the entry is present, invokes its
single-use `resolve` exactly once and removes the entry; when the entry is
absent (as it is after any first resolution) the attempt changes neither
the pending map nor the resolution log.  (The allow-all callback still
flips the session-wide auto-approve mode and answers the button, and the
unknown-id decision callback answers "Request expired or not found" — the
approval itself is untouched.) -/
theorem c1_approval_resolved_at_most_once (st : BotState) (id : String) :
    (jsMapGet st.pendingApprovals id = none →
      (∀ d, (callbackDecision st id d).pendingApprovals = st.pendingApprovals ∧
        (callbackDecision st id d).resolutions = st.resolutions) ∧
      (∀ now, (callbackAllowAll st id now).pendingApprovals = st.pendingApprovals ∧
        (callbackAllowAll st id now).resolutions = st.resolutions) ∧
      fireAutoDenyTimer st id = st) ∧
    (∀ req, jsMapGet st.pendingApprovals id = some req →
      (∀ d, jsMapGet (callbackDecision st id d).pendingApprovals id = none ∧
        (callbackDecision st id d).resolutions = st.resolutions ++ [(id, d)]) ∧
      (∀ now, jsMapGet (callbackAllowAll st id now).pendingApprovals id = none ∧
        (callbackAllowAll st id now).resolutions =
          st.resolutions ++ [(id, Decision.allow)]) ∧
      (jsMapGet (fireAutoDenyTimer st id).pendingApprovals id = none ∧
        (fireAutoDenyTimer st id).resolutions =
          st.resolutions ++ [(id, Decision.deny)])) := by
  constructor
  · intro h
    refine ⟨?_, ?_, ?_⟩
    · intro d
      constructor <;> simp [callbackDecision, h]
    · intro now
      constructor <;> simp [callbackAllowAll, h]
    · simp [fireAutoDenyTimer, jsMapHas_eq_isSome, h]
  · intro req h
    refine ⟨?_, ?_, ?_⟩
    · intro d
      constructor <;> simp [callbackDecision, h, jsMapGet_delete_self]
    · intro now
      constructor <;> simp [callbackAllowAll, h, jsMapGet_delete_self]
    · constructor <;> simp [fireAutoDenyTimer, jsMapHas_eq_isSome, h, jsMapGet_delete_self]

/-- Witness for `c1_approval_resolved_at_most_once`: the registered
approval `req-1` of `oneApprovalState` is removed and resolved `deny` by an
explicit deny callback. -/
theorem c1_approval_resolved_at_most_once_witness :
    jsMapGet (callbackDecision oneApprovalState "req-1" Decision.deny).pendingApprovals
      "req-1" = none ∧
    (callbackDecision oneApprovalState "req-1" Decision.deny).resolutions =
      oneApprovalState.resolutions ++ [("req-1", Decision.deny)] :=
  ((c1_approval_resolved_at_most_once oneApprovalState "req-1").2 req1Record rfl).1
    Decision.deny

/-- C2: `requestApproval` arms exactly a warning timer at creation + 8
minutes (480000 ms) and an auto-deny timer at creation + 10 minutes
(600000 ms); the warning callback only notifies while the id is still
pending (it never resolves or removes), the auto-deny callback removes the
entry and resolves it `deny` while the id is still pending, and both
callbacks check the pending map first, so once the entry is gone — in
particular after the auto-deny fired — any further timer callback or
decision callback leaves the approval state untouched. -/
theorem c2_pending_approval_timers (st : BotState) (id sessionId toolName : String)
    (ti : ToolInput) (cwd : String) (warning : Option String) (t0 : Nat) :
    (requestApprovalRegister st id sessionId toolName ti cwd warning t0).timers =
      st.timers ++
        [ { requestId := id, fireAt := t0 + 480000, kind := .warn }
        , { requestId := id, fireAt := t0 + 600000, kind := .autoDeny } ] ∧
    (∀ st2 : BotState, jsMapHas st2.pendingApprovals id = true →
      fireWarnTimer st2 id =
        { st2 with notifications := st2.notifications ++ [.timeoutWarning id] }) ∧
    (∀ st2 : BotState, jsMapHas st2.pendingApprovals id = true →
      (fireAutoDenyTimer st2 id).resolutions =
        st2.resolutions ++ [(id, Decision.deny)] ∧
      jsMapGet (fireAutoDenyTimer st2 id).pendingApprovals id = none ∧
      (fireAutoDenyTimer st2 id).notifications =
        st2.notifications ++ [.timedOutAutoDenied id]) ∧
    (∀ st2 : BotState, jsMapGet st2.pendingApprovals id = none →
      fireWarnTimer st2 id = st2 ∧
      fireAutoDenyTimer st2 id = st2 ∧
      (∀ d, (callbackDecision st2 id d).resolutions = st2.resolutions ∧
        (callbackDecision st2 id d).pendingApprovals = st2.pendingApprovals)) := by
  refine ⟨?_, ?_, ?_, ?_⟩
  · simp [requestApprovalRegister]
  · intro st2 h
    simp [fireWarnTimer, h]
  · intro st2 h
    refine ⟨?_, ?_, ?_⟩ <;> simp [fireAutoDenyTimer, h, jsMapGet_delete_self]
  · intro st2 h
    refine ⟨?_, ?_, ?_⟩
    · simp [fireWarnTimer, jsMapHas_eq_isSome, h]
    · simp [fireAutoDenyTimer, jsMapHas_eq_isSome, h]
    · intro d
      constructor <;> simp [callbackDecision, h]

/-- Witness for `c2_pending_approval_timers`: firing the auto-deny timer on
the still-pending `req-1` resolves it `deny`, removes it, and notifies. -/
theorem c2_pending_approval_timers_witness :
    (fireAutoDenyTimer oneApprovalState "req-1").resolutions =
      oneApprovalState.resolutions ++ [("req-1", Decision.deny)] ∧
    jsMapGet (fireAutoDenyTimer oneApprovalState "req-1").pendingApprovals
      "req-1" = none ∧
    (fireAutoDenyTimer oneApprovalState "req-1").notifications =
      oneApprovalState.notifications ++ [.timedOutAutoDenied "req-1"] :=
  ((c2_pending_approval_timers emptyBotState "req-1" "sess-1" "Bash"
    basicBashPayload.tool_input "/tmp" none 0).2.2.1) oneApprovalState rfl

/- ===================== Claims C4 and C9 ===================== -/

/-- C4 (counterexample): the claim asserts that a completion-type prompt
always emits immediately and does not change the status to waiting.  On a
fresh session, handling a chunk classified as a completion prompt DOES set
the status to `waiting` (the emission branch of `handleOutput` has no
completion special-case), and a second completion chunk one second later
is suppressed by the 2-second same-type debounce (no prompt event). -/
theorem c4_counterexample :
    completionPrompt.type = .completion ∧
    (handleOutput freshSession "done" (some completionPrompt) 5000).1.status =
      .waiting ∧
    emittedPrompts
      (handleOutput (handleOutput freshSession "done" (some completionPrompt) 5000).1
        "done" (some completionPrompt) 6000).2 = [] :=
  ⟨rfl, rfl, rfl⟩

/-- C4 (amended): `handleOutput` treats a completion-type prompt exactly
like any other prompt type: it is subject to the 2-second same-type
debounce (a completion prompt arriving while the tracked prompt is already
a completion emitted less than 2 seconds ago is silently absorbed, leaving
the status unchanged), and whenever a completion prompt IS emitted the
session status becomes `waiting`. -/
theorem c4_completion_prompt_debounced (s : Session) (data : String)
    (p : ParsedPrompt) (now : Nat) (hp : p.type = .completion) :
    (∀ cp t, s.currentPrompt = some cp → cp.type = .completion →
      s.lastPromptTime = some t → t ≠ 0 → ((now : Int) - (t : Int) ≤ 2000) →
      emittedPrompts (handleOutput s data (some p) now).2 = [] ∧
      (handleOutput s data (some p) now).1.status = s.status) ∧
    (emittedPrompts (handleOutput s data (some p) now).2 ≠ [] →
      (handleOutput s data (some p) now).1.status = .waiting) := by
  constructor
  · intro cp t hcp htype ht ht0 hle
    have h1 : decide (cp.type ≠ p.type) = false := by simp [htype, hp]
    have h2 : (t == 0) = false := by simpa using ht0
    have h3 : decide ((now : Int) - (t : Int) > 2000) = false := by
      simp only [decide_eq_false_iff_not, not_lt]
      exact hle
    simp [handleOutput, hcp, ht, h1, h2, h3, emittedPrompts]
  · intro hne
    simp only [handleOutput] at hne ⊢
    split at hne
    · simp_all [emittedPrompts]
    · exfalso
      apply hne
      simp [emittedPrompts]

/-- Witness for `c4_completion_prompt_debounced`: a completion prompt one
second after an emitted completion prompt is absorbed without a status
change, and the first emission set the status to waiting. -/
theorem c4_completion_prompt_debounced_witness :
    (emittedPrompts
      (handleOutput (handleOutput freshSession "done" (some completionPrompt) 5000).1
        "done" (some completionPrompt) 6000).2 = [] ∧
    (handleOutput (handleOutput freshSession "done" (some completionPrompt) 5000).1
        "done" (some completionPrompt) 6000).1.status =
      (handleOutput freshSession "done" (some completionPrompt) 5000).1.status) :=
  (c4_completion_prompt_debounced
      (handleOutput freshSession "done" (some completionPrompt) 5000).1
      "done" completionPrompt 6000 rfl).1 completionPrompt 5000 rfl rfl rfl
    (by decide) (by decide)

/-- C9: for a single-select question with four options and selection set
containing exactly option 2 (0-indexed), the keystroke synthesizer
produces exactly two move-down escape sequences followed by one
confirmation keystroke, and the sequence contains no digit characters. -/
theorem c9_single_select_keystrokes (q : AskUserQuestionItem)
    (hm : q.multiSelect = false) (hl : q.options.length = 4) :
    buildKeystrokesForAnswer [q] [(0, [2])] none =
      DOWN_KEY ++ DOWN_KEY ++ ENTER_KEY ∧
    ∀ c ∈ (buildKeystrokesForAnswer [q] [(0, [2])] none).data, ¬ c.isDigit := by
  have hb : buildKeystrokesForAnswer [q] [(0, [2])] none = "\x1b[B\x1b[B\r" := by
    obtain ⟨qq, hh, oo, ms⟩ := q
    simp only at hm
    subst hm
    rfl
  rw [hb]
  exact ⟨by decide, by decide⟩

/-- Witness for `c9_single_select_keystrokes` at the concrete question with
options A, B, C, D. -/
theorem c9_single_select_keystrokes_witness :
    buildKeystrokesForAnswer [c9Question] [(0, [2])] none =
      DOWN_KEY ++ DOWN_KEY ++ ENTER_KEY ∧
    ∀ c ∈ (buildKeystrokesForAnswer [c9Question] [(0, [2])] none).data,
      ¬ c.isDigit :=
  c9_single_select_keystrokes c9Question rfl rfl

/- ===================== Claim C5 ===================== -/

/-- The boolean test of the `findSessionByCwd` loop decides the matching
predicate. -/
theorem matchesCwd_bool (s : Session) (cwd : String) :
    (s.cwd == cwd && !(s.status == SessionStatus.completed)) = true ↔
      sessionMatchesCwd cwd s := by
  simp [sessionMatchesCwd]

/-- First-match characterization of the `findSessionByCwd` loop. -/
theorem findByCwdGo_spec (l : List (String × Session)) (cwd : String) :
    (∀ s, findByCwdGo l cwd = some s →
      sessionMatchesCwd cwd s ∧
      ∃ l1 l2, l.map Prod.snd = l1 ++ s :: l2 ∧
        ∀ q ∈ l1, ¬ sessionMatchesCwd cwd q) ∧
    (findByCwdGo l cwd = none →
      ∀ q ∈ l.map Prod.snd, ¬ sessionMatchesCwd cwd q) := by
  induction l with
  | nil =>
    constructor
    · intro s h
      cases h
    · intro _ q hq
      cases hq
  | cons p rest ih =>
    constructor
    · intro s h
      by_cases hc : (p.2.cwd == cwd && !(p.2.status == SessionStatus.completed)) = true
      · rw [show findByCwdGo (p :: rest) cwd = some p.2 by
            simp [findByCwdGo, hc]] at h
        obtain rfl : p.2 = s := by injection h
        exact ⟨(matchesCwd_bool _ _).mp hc, [], rest.map Prod.snd, by simp, by simp⟩
      · rw [show findByCwdGo (p :: rest) cwd = findByCwdGo rest cwd by
            simp [findByCwdGo]; intro h1 h2; exact absurd (by simp [h1, h2]) hc] at h
        obtain ⟨hm, l1, l2, heq, hl1⟩ := ih.1 s h
        refine ⟨hm, p.2 :: l1, l2, by simp [heq], ?_⟩
        intro q hq
        rcases List.mem_cons.mp hq with hq | hq
        · subst hq
          exact fun hmq => hc ((matchesCwd_bool _ _).mpr hmq)
        · exact hl1 q hq
    · intro h q hq
      by_cases hc : (p.2.cwd == cwd && !(p.2.status == SessionStatus.completed)) = true
      · rw [show findByCwdGo (p :: rest) cwd = some p.2 by
            simp [findByCwdGo, hc]] at h
        cases h
      · rw [show findByCwdGo (p :: rest) cwd = findByCwdGo rest cwd by
            simp [findByCwdGo]; intro h1 h2; exact absurd (by simp [h1, h2]) hc] at h
        rw [List.map_cons] at hq
        rcases List.mem_cons.mp hq with hq | hq
        · subst hq
          exact fun hmq => hc ((matchesCwd_bool _ _).mpr hmq)
        · exact ih.2 h q hq

/-- C5 (counterexample): with two live sessions in `/a` — `session-1`
created at time 0 and `session-2` created at time 1000 — the most recently
created non-completed match is `session-2`, but `findSessionByCwd` returns
`session-1`: the loop returns the FIRST (oldest) match in registry order,
not the most recent one. -/
theorem c5_counterexample :
    (findSessionByCwd twoSessionState "/a").map Session.id = some "session-1" ∧
    (jsMapGet twoSessionState.sessions "session-2").map Session.cwd = some "/a" ∧
    (jsMapGet twoSessionState.sessions "session-2").map Session.status =
      some .active ∧
    (jsMapGet twoSessionState.sessions "session-1").map Session.createdAt =
      some 0 ∧
    (jsMapGet twoSessionState.sessions "session-2").map Session.createdAt =
      some 1000 :=
  ⟨rfl, rfl, rfl, rfl, rfl⟩

/-- C5 (amended): `findSessionByCwd` returns the EARLIEST-registered (hence
oldest, since `spawn` appends) non-completed session whose working
directory matches exactly — every registry entry before the returned one
fails the match — and returns none exactly when no non-completed session
matches. -/
theorem c5_returns_first_match (st : SessionManagerState) (cwd : String) :
    (∀ s, findSessionByCwd st cwd = some s →
      sessionMatchesCwd cwd s ∧
      ∃ l1 l2, st.sessions.map Prod.snd = l1 ++ s :: l2 ∧
        ∀ q ∈ l1, ¬ sessionMatchesCwd cwd q) ∧
    (findSessionByCwd st cwd = none →
      ∀ q ∈ st.sessions.map Prod.snd, ¬ sessionMatchesCwd cwd q) :=
  findByCwdGo_spec st.sessions cwd

/-- Witness for `c5_returns_first_match` on the two-session registry. -/
theorem c5_returns_first_match_witness :
    sessionMatchesCwd "/a" firstSpawnedSession ∧
    ∃ l1 l2, twoSessionState.sessions.map Prod.snd =
        l1 ++ firstSpawnedSession :: l2 ∧
      ∀ q ∈ l1, ¬ sessionMatchesCwd "/a" q :=
  (c5_returns_first_match twoSessionState "/a").1 firstSpawnedSession rfl

/- ===================== Claim C3 ===================== -/

/-- In a well-formed registry, a stored pair is found again under its
session's id. -/
theorem jsMapGet_of_mem (l : List (String × Session))
    (hkeys : ∀ p ∈ l, p.2.id = p.1) (hnodup : (l.map Prod.fst).Nodup)
    (pr : String × Session) (hp : pr ∈ l) :
    jsMapGet l pr.2.id = some pr.2 := by
  induction l with
  | nil => cases hp
  | cons q rest ih =>
    rcases List.mem_cons.mp hp with hq | hq
    · subst hq
      have : pr.2.id = pr.1 := hkeys pr (List.mem_cons_self _ _)
      simp [jsMapGet, List.find?, this]
    · have hqid : pr.2.id = pr.1 := hkeys pr (List.mem_cons.mpr (Or.inr hq))
      have hkey : pr.1 ∈ rest.map Prod.fst := List.mem_map.mpr ⟨pr, hq, rfl⟩
      have hne : q.1 ≠ pr.1 := by
        intro he
        rw [List.map_cons] at hnodup
        exact (List.nodup_cons.mp hnodup).1 (he ▸ hkey)
      have hbeq : (q.1 == pr.2.id) = false := by
        simp [hqid]
        exact fun he => hne he
      simp only [jsMapGet, List.find?_cons, hbeq]
      exact ih (fun p hm => hkeys p (List.mem_cons.mpr (Or.inr hm)))
        ((List.nodup_cons.mp (by rw [List.map_cons] at hnodup; exact hnodup)).2) hq

/-- A session found by cwd is stored in the registry. -/
theorem findByCwdGo_mem (l : List (String × Session)) (cwd : String) (s : Session)
    (h : findByCwdGo l cwd = some s) : ∃ pr ∈ l, pr.2 = s := by
  obtain ⟨_, l1, l2, heq, _⟩ := (findByCwdGo_spec l cwd).1 s h
  have : s ∈ l.map Prod.snd := by
    rw [heq]
    simp
  obtain ⟨pr, hm, he⟩ := List.mem_map.mp this
  exact ⟨pr, hm, he⟩

/-- C3 (counterexample): the claim asserts a submit attempt is accepted IFF
every question has a non-empty selection, and that an accepted submit
delivers one keystroke write and removes the set.  With a fully answered
two-question set but no live session in its working directory, the submit
attempt fails: no keystroke write happens and the pending set is retained,
although every question is answered. -/
theorem c3_counterexample :
    findFirstUnanswered pendingFull = none ∧
    (askqSubmitCallback brokerFullNoSession "req-9").2.1 = .failed ∧
    (askqSubmitCallback brokerFullNoSession "req-9").2.2 = [] ∧
    (askqSubmitCallback brokerFullNoSession "req-9").1.pendingQuestions =
      [("req-9", pendingFull)] :=
  ⟨rfl, rfl, rfl, rfl⟩

/-- C3 (amended): a submit attempt with some unanswered question is
rejected identifying the FIRST unanswered question and changes nothing;
a submit attempt with every question answered AND a live session in the
set's working directory delivers the answers as exactly one combined
keystroke write to that session and removes the pending set; with every
question answered but no such session, the submit fails and the pending
set remains. -/
theorem c3_submit_requires_all_answered (st : QuestionBrokerState) (id : String)
    (pending : PendingAskUserQuestion)
    (hwf : RegistryWF st.sessionManager)
    (hget : jsMapGet st.pendingQuestions id = some pending) :
    (∀ i, findFirstUnanswered pending = some i →
      askqSubmitCallback st id =
        (st, .rejectedUnanswered i (unansweredName pending i), [])) ∧
    (findFirstUnanswered pending = none →
      (∀ session,
        findSessionByCwd st.sessionManager pending.sessionCwd = some session →
        (askqSubmitCallback st id).2.1 = .submitted ∧
        (askqSubmitCallback st id).2.2 =
          [(session.id, buildKeystrokesForAnswer pending.questions
            pending.selections pending.customTexts)] ∧
        jsMapGet (askqSubmitCallback st id).1.pendingQuestions id = none) ∧
      (findSessionByCwd st.sessionManager pending.sessionCwd = none →
        (askqSubmitCallback st id).2.1 = .failed ∧
        (askqSubmitCallback st id).2.2 = [] ∧
        (askqSubmitCallback st id).1.pendingQuestions = st.pendingQuestions)) := by
  constructor
  · intro i hi
    simp [askqSubmitCallback, hget, hi]
  · intro hnone
    constructor
    · intro session hfind
      obtain ⟨pr, hmem, hpr⟩ := findByCwdGo_mem st.sessionManager.sessions
        pending.sessionCwd session hfind
      have hmatch := ((findByCwdGo_spec st.sessionManager.sessions
        pending.sessionCwd).1 session hfind).1
      have hnc : ¬ (session.status = SessionStatus.completed) := hmatch.2
      have hgets : jsMapGet st.sessionManager.sessions session.id = some session := by
        have := jsMapGet_of_mem st.sessionManager.sessions hwf.1 hwf.2 pr hmem
        rw [hpr] at this
        exact this
      refine ⟨?_, ?_, ?_⟩ <;>
        simp [askqSubmitCallback, hget, hnone, submitAskUserQuestionAnswer,
          hfind, sendInput, hgets, hnc, jsMapGet_delete_self]
    · intro hfind
      refine ⟨?_, ?_, ?_⟩ <;>
        simp [askqSubmitCallback, hget, hnone, submitAskUserQuestionAnswer, hfind]

/-- Witness for `c3_submit_requires_all_answered`: submitting the fully
answered two-question set with a live session in `/a` succeeds with one
combined write and removes the set. -/
theorem c3_submit_requires_all_answered_witness :
    (askqSubmitCallback brokerFull "req-9").2.1 = .submitted ∧
    (askqSubmitCallback brokerFull "req-9").2.2 =
      [(oneSpawnedSession.id, buildKeystrokesForAnswer pendingFull.questions
        pendingFull.selections pendingFull.customTexts)] ∧
    jsMapGet (askqSubmitCallback brokerFull "req-9").1.pendingQuestions
      "req-9" = none :=
  ((c3_submit_requires_all_answered brokerFull "req-9" pendingFull
    ⟨by decide, by decide⟩ rfl).2 rfl).1 oneSpawnedSession rfl

/- ===================== Claim C8 ===================== -/

/-- From a non-completed status every transition is allowed. -/
theorem amendedStep_of_not_completed (a b : SessionStatus)
    (h : a ≠ .completed) : amendedStep a b = true := by
  cases a <;> cases b <;> first | rfl | exact absurd rfl h

/-- Every operation's status transition is an `amendedStep` edge, provided
output is not handled on a completed session. -/
theorem step_edge (s : Session) (op : SessionOp)
    (hout : isOutOp op = true → s.status ≠ .completed) :
    amendedStep s.status (sessionStep s op).status = true := by
  cases op with
  | out data parsed now => exact amendedStep_of_not_completed _ _ (hout rfl)
  | input t =>
    by_cases h : s.status = SessionStatus.completed
    · simp [sessionStep, h, amendedStep]
    · simp only [sessionStep, if_neg h]
      exact amendedStep_of_not_completed _ _ h
  | kill => cases hs : s.status <;> simp [sessionStep, amendedStep, hs]
  | exit code => cases hs : s.status <;> simp [sessionStep, amendedStep, hs]

/-- A run without output-on-completed only takes `amendedStep` edges. -/
theorem goodFrom_of_noOut (ops : List SessionOp) : ∀ s : Session,
    noOutOnCompleted s ops = true → goodFrom s.status (runStatuses s ops) = true := by
  induction ops with
  | nil =>
    intro s _
    rfl
  | cons op rest ih =>
    intro s h
    simp only [noOutOnCompleted, Bool.and_eq_true] at h
    obtain ⟨h1, h2⟩ := h
    simp only [runStatuses, goodFrom, Bool.and_eq_true]
    refine ⟨?_, ih _ h2⟩
    apply step_edge
    intro hop hcomp
    simp [hop, hcomp] at h1

/-- The amended language after `active waiting` equals the residual
acceptance after `waiting`. -/
theorem amendedAfterActive_waiting (t : List SessionStatus) :
    amendedAfterActive (.waiting :: t) = resid .waiting t := by
  cases t with
  | nil => rfl
  | cons y t2 => cases y <;> cases t2 <;> rfl

/-- Nothing may follow `completed` in a residual acceptance. -/
theorem resid_completed_nil (t : List SessionStatus)
    (h : resid .completed t = true) : t = [] := by
  cases t with
  | nil => rfl
  | cons y t2 => simp [resid] at h

/-- A stutter-free view of an edge-respecting run is accepted by the
residual language of its starting status. -/
theorem resid_squashAfter (l : List SessionStatus) : ∀ prev,
    goodFrom prev l = true → resid prev (squashAfter prev l) = true := by
  induction l with
  | nil =>
    intro prev _
    cases prev <;> rfl
  | cons x rest ih =>
    intro prev h
    simp only [goodFrom, Bool.and_eq_true] at h
    obtain ⟨hstep, hrest⟩ := h
    by_cases hx : (x == prev) = true
    · have hxe : x = prev := by simpa using hx
      simp only [squashAfter, hx, ite_true]
      subst hxe
      exact ih x hrest
    · have hxf : (x == prev) = false := by simpa using hx
      simp only [squashAfter, hxf, ite_false]
      have hres := ih x hrest
      cases prev with
      | active =>
        cases x with
        | active => simp at hxf
        | waiting =>
          show amendedAfterActive (.waiting :: squashAfter .waiting rest) = true
          rw [amendedAfterActive_waiting]
          exact hres
        | completed =>
          have := resid_completed_nil _ hres
          show amendedAfterActive (.completed :: squashAfter .completed rest) = true
          rw [this]
          rfl
      | waiting =>
        cases x with
        | active => exact hres
        | waiting => simp at hxf
        | completed =>
          have := resid_completed_nil _ hres
          show resid .waiting (.completed :: squashAfter .completed rest) = true
          rw [this]
          rfl
      | completed =>
        cases x with
        | active => simp [amendedStep] at hstep
        | waiting => simp [amendedStep] at hstep
        | completed => simp at hxf

/-- C8 (counterexample): the claim puts every status sequence in
`active (waiting active)* completed` and says no operation changes a
completed session's status.  The concrete run "prompt, kill, late output
chunk with a prompt" gives the status sequence
`active waiting completed waiting`: `kill` completes directly from
`waiting` (the claimed language requires a return to `active` first, so
even the prefix `active waiting completed` is outside it), and
`handleOutput` has no completed-check, so the late prompt moves the
completed session back to `waiting`. -/
theorem c8_counterexample :
    freshSession.status = .active ∧
    statusTrace freshSession c8Ops =
      [.active, .waiting, .completed, .waiting] ∧
    squashTrace (statusTrace freshSession c8Ops) =
      [.active, .waiting, .completed, .waiting] ∧
    inClaimLang (squashTrace (statusTrace freshSession c8Ops)) = false ∧
    inClaimLang [.active, .waiting, .completed] = false :=
  ⟨rfl, rfl, rfl, rfl, rfl⟩

/-- C8 (amended): for every run from a freshly spawned session in which no
output is handled after completion, the status sequence (up to stuttering)
lies in `active (waiting active)* waiting? completed?` — `kill` and process
exit may complete directly from `waiting` — and equivalently the raw trace
starts at `active` with `completed` absorbing; moreover every operation
other than output handling (which performs no status check) preserves a
completed status. -/
theorem c8_status_language (s0 : Session) (ops : List SessionOp)
    (h0 : s0.status = .active) (hout : noOutOnCompleted s0 ops = true) :
    amendedAccepts (statusTrace s0 ops) = true ∧
    inAmendedLang (squashTrace (statusTrace s0 ops)) = true ∧
    (∀ (s : Session) (op : SessionOp), s.status = .completed →
      isOutOp op = false → (sessionStep s op).status = .completed) := by
  have hgood : goodFrom s0.status (runStatuses s0 ops) = true :=
    goodFrom_of_noOut ops s0 hout
  rw [h0] at hgood
  refine ⟨?_, ?_, ?_⟩
  · simp only [amendedAccepts, statusTrace, h0]
    exact hgood
  · simp only [squashTrace, statusTrace, h0, inAmendedLang]
    exact resid_squashAfter _ _ hgood
  · intro s op h hc
    cases op with
    | out data parsed now => simp [isOutOp] at hc
    | input t => simp [sessionStep, h]
    | kill => simp [sessionStep]
    | exit code => simp [sessionStep]

/-- Witness for `c8_status_language` on the concrete run "prompt, input,
kill" from a fresh session. -/
theorem c8_status_language_witness :
    amendedAccepts (statusTrace freshSession witnessOps) = true ∧
    inAmendedLang (squashTrace (statusTrace freshSession witnessOps)) = true :=
  ⟨(c8_status_language freshSession witnessOps rfl rfl).1,
   (c8_status_language freshSession witnessOps rfl rfl).2.1⟩

/- ===================== Claim C10 ===================== -/

/-- `toDigitsCore` only prepends to its accumulator. -/
theorem toDigitsCore_shift (f : Nat) : ∀ n acc,
    Nat.toDigitsCore 10 f n acc = Nat.toDigitsCore 10 f n [] ++ acc := by
  induction f with
  | zero =>
    intro n acc
    rfl
  | succ f ih =>
    intro n acc
    simp only [Nat.toDigitsCore]
    by_cases h : n / 10 = 0
    · simp [h]
    · simp only [h, if_neg, ite_false]
      rw [ih (n / 10) (Nat.digitChar (n % 10) :: acc),
        ih (n / 10) [Nat.digitChar (n % 10)]]
      simp

/-- `digitChar` is inverted by `digitVal` on decimal digits. -/
theorem digitVal_digitChar (d : Nat) (h : d < 10) :
    digitVal (Nat.digitChar d) = d := by
  interval_cases d <;> rfl

/-- Evaluating one more digit at the end of a digit string. -/
theorem ofDigits_append_digit (l : List Char) (c : Char) :
    ofDigits (l ++ [c]) = ofDigits l * 10 + digitVal c := by
  simp [ofDigits, List.foldl_append]

/-- Round trip: reading back the digits of `n` yields `n`. -/
theorem ofDigits_toDigitsCore : ∀ f n, n < f →
    ofDigits (Nat.toDigitsCore 10 f n []) = n := by
  intro f
  induction f with
  | zero =>
    intro n h
    omega
  | succ f ih =>
    intro n h
    simp only [Nat.toDigitsCore]
    by_cases hd : n / 10 = 0
    · have hn : n < 10 := (Nat.div_eq_zero_iff (by norm_num : 0 < 10)).mp hd
      simp only [hd, ite_true]
      show ofDigits [Nat.digitChar (n % 10)] = n
      have he : ofDigits [Nat.digitChar (n % 10)] =
          digitVal (Nat.digitChar (n % 10)) := by
        simp [ofDigits]
      rw [he, digitVal_digitChar _ (Nat.mod_lt n (by norm_num))]
      exact Nat.mod_eq_of_lt hn
    · simp only [hd, if_neg, ite_false]
      rw [toDigitsCore_shift, ofDigits_append_digit]
      have hpos : 0 < n := by
        rcases Nat.eq_zero_or_pos n with h0 | h0
        · subst h0
          simp at hd
        · exact h0
      have hlt : n / 10 < f := by
        have h1 : n / 10 < n := Nat.div_lt_self hpos (by norm_num)
        omega
      rw [ih (n / 10) hlt, digitVal_digitChar _ (Nat.mod_lt n (by norm_num))]
      have := Nat.div_add_mod n 10
      omega

/-- Decimal rendering of naturals is injective. -/
theorem Nat_repr_inj (m n : Nat) (h : Nat.repr m = Nat.repr n) : m = n := by
  have hd : Nat.toDigits 10 m = Nat.toDigits 10 n := by
    have h2 := congrArg String.data h
    simpa [Nat.repr, List.asString] using h2
  have h1 := ofDigits_toDigitsCore (m + 1) m (Nat.lt_succ_self m)
  have h2 := ofDigits_toDigitsCore (n + 1) n (Nat.lt_succ_self n)
  rw [Nat.toDigits] at hd
  rw [← h1, ← h2]
  exact congrArg ofDigits hd

/-- The rendered session id determines the counter value. -/
theorem mkSessionId_inj (m n : Nat) (h : mkSessionId m = mkSessionId n) : m = n := by
  have hd := congrArg String.data h
  simp only [mkSessionId, String.data_append] at hd
  have hl : (toString m).data = (toString n).data :=
    List.append_cancel_left hd
  have he : (toString m : String) = toString n := by
    cases hm : (toString m : String) with
    | mk dm =>
      cases hn : (toString n : String) with
      | mk dn =>
        rw [hm, hn] at hl
        simp only at hl
        rw [hl]
  exact Nat_repr_inj m n he

/-- No registry operation ever decreases the session counter. -/
theorem applyManagerOp_counter (st : SessionManagerState) (op : ManagerOp) :
    st.sessionCounter ≤ (applyManagerOp st op).1.sessionCounter := by
  cases op with
  | spawnOp task cwd mode now => simp [applyManagerOp, spawn]
  | sendInputOp id input =>
    simp only [applyManagerOp, sendInput]
    cases h : jsMapGet st.sessions id with
    | none => simp
    | some s => by_cases hc : s.status = SessionStatus.completed <;> simp [hc]
  | killOp id =>
    simp only [applyManagerOp, kill]
    cases h : jsMapGet st.sessions id with
    | none => simp
    | some s => simp
  | killAllOp => simp [applyManagerOp, killAll]
  | cleanupOp => simp [applyManagerOp, cleanup]
  | exitOp id =>
    simp only [applyManagerOp, sessionExit]
    cases h : jsMapGet st.sessions id with
    | none => simp
    | some s => simp

/-- Every id a run hands out renders a counter value strictly above the
starting counter. -/
theorem runManager_ids_gt (ops : List ManagerOp) : ∀ (st : SessionManagerState)
    (id : String), id ∈ (runManager st ops).2 →
    ∃ k, st.sessionCounter < k ∧ id = mkSessionId k := by
  induction ops with
  | nil =>
    intro st id h
    cases h
  | cons op rest ih =>
    intro st id h
    simp only [runManager] at h
    rcases List.mem_append.mp h with h | h
    · cases op with
      | spawnOp task cwd mode now =>
        simp only [applyManagerOp, spawn, List.mem_singleton] at h
        exact ⟨st.sessionCounter + 1, Nat.lt_succ_self _, h⟩
      | sendInputOp id2 input => cases h
      | killOp id2 => cases h
      | killAllOp => cases h
      | cleanupOp => cases h
      | exitOp id2 => cases h
    · obtain ⟨k, hk, he⟩ := ih (applyManagerOp st op).1 id h
      exact ⟨k, lt_of_le_of_lt (applyManagerOp_counter st op) hk, he⟩

/-- The ids handed out by a run are pairwise distinct. -/
theorem runManager_ids_nodup (ops : List ManagerOp) :
    ∀ st : SessionManagerState, ((runManager st ops).2).Nodup := by
  induction ops with
  | nil =>
    intro st
    exact List.nodup_nil
  | cons op rest ih =>
    intro st
    simp only [runManager]
    cases op with
    | spawnOp task cwd mode now =>
      simp only [applyManagerOp, spawn, List.singleton_append]
      refine List.nodup_cons.mpr ⟨?_, ih _⟩
      intro hmem
      obtain ⟨k, hk, he⟩ := runManager_ids_gt rest _ _ hmem
      simp only [spawn] at hk
      have : st.sessionCounter + 1 = k := mkSessionId_inj _ _ he
      omega
    | sendInputOp id input =>
      simp only [applyManagerOp, List.nil_append]
      exact ih _
    | killOp id =>
      simp only [applyManagerOp, List.nil_append]
      exact ih _
    | killAllOp =>
      simp only [applyManagerOp, List.nil_append]
      exact ih _
    | cleanupOp =>
      simp only [applyManagerOp, List.nil_append]
      exact ih _
    | exitOp id =>
      simp only [applyManagerOp, List.nil_append]
      exact ih _

/-- C10: session ids are never reused within a process lifetime.  `spawn`
renders the id from the incremented counter, no operation (including
`cleanup`, which removes completed sessions) ever decreases or resets the
counter, and decimal rendering is injective — hence over every sequence of
registry operations from process start, the ids returned by the spawns are
pairwise distinct. -/
theorem c10_session_ids_never_reused :
    (∀ (st : SessionManagerState) (task cwd : String) (mode : PermissionMode)
      (now : Nat),
      (spawn st task cwd mode now).2.id = mkSessionId (st.sessionCounter + 1) ∧
      (spawn st task cwd mode now).1.sessionCounter = st.sessionCounter + 1) ∧
    (∀ ops : List ManagerOp, ((runManager initialManager ops).2).Nodup) :=
  ⟨fun _ _ _ _ _ => ⟨rfl, rfl⟩,
   fun ops => runManager_ids_nodup ops initialManager⟩
